import Mathlib

/-!
Verification development for the WebRTC signaling/transport gateway
(`load-test-server`).  The Rust sources under `src/` are shallowly embedded:
pure functions become Lean functions, stateful handlers become explicit
state-passing functions over a handler-state record, and all I/O outcomes
(ICE agent calls, TLS handshake, websocket sends, packet receipt) are
supplied by an explicit environment record.
-/

namespace LoadTestServer

/-! ## SDP data model (embedding of the `sdp` crate types used by `src/sdp.rs`) -/

structure Attribute where
  key : String
  value : Option String
  deriving Repr, DecidableEq

structure Address where
  address : String
  ttl : Option Int
  range : Option Int
  deriving Repr, DecidableEq

structure ConnectionInformation where
  network_type : String
  address : Option Address
  address_type : String
  deriving Repr, DecidableEq

structure Bandwidth where
  experimental : Bool
  bandwidth_type : String
  bandwidth : Nat
  deriving Repr, DecidableEq

structure RangedPort where
  value : Int
  range : Option Int
  deriving Repr, DecidableEq

structure MediaName where
  media : String
  port : RangedPort
  protos : List String
  formats : List String
  deriving Repr, DecidableEq

structure MediaDescription where
  media_name : MediaName
  media_title : Option String
  connection_information : Option ConnectionInformation
  bandwidth : List Bandwidth
  encryption_key : Option String
  attributes : List Attribute
  deriving Repr, DecidableEq

structure Origin where
  username : String
  session_id : Nat
  session_version : Nat
  network_type : String
  address_type : String
  unicast_address : String
  deriving Repr, DecidableEq

structure Timing where
  start_time : Nat
  stop_time : Nat
  deriving Repr, DecidableEq

structure RepeatTime where
  interval : Int
  duration : Int
  offsets : List Int
  deriving Repr, DecidableEq

structure TimeDescription where
  timing : Timing
  repeat_times : List RepeatTime
  deriving Repr, DecidableEq

structure TimeZone where
  adjustment_time : Nat
  offset : Int
  deriving Repr, DecidableEq

structure SessionDescription where
  version : Int
  origin : Origin
  session_name : String
  session_information : Option String
  uri : Option String
  email_address : Option String
  phone_number : Option String
  connection_information : Option ConnectionInformation
  bandwidth : List Bandwidth
  time_descriptions : List TimeDescription
  time_zones : List TimeZone
  encryption_key : Option String
  attributes : List Attribute
  media_descriptions : List MediaDescription
  deriving Repr, DecidableEq

/-! ## Error type (embedding of `OfferWebSocketError`, src/offer_websocket.rs) -/

inductive OfferWebSocketError where
  | ParseFailed
  | SerializeFailed
  | Unhandled
  | UnknownError
  | InvalidMessage
  | InvalidSDP (reason : String)
  | InvalidAgentConfig
  | GatheringError
  | WebSocketWriteError
  | InternalError (detail : String)
  | NoProtectionProfile
  | InvalidProtectionProfile
  deriving Repr, DecidableEq

/-! ## `ActiveMode` and `parse_sdp_config` (embedding of src/sdp.rs lines 12-90) -/

inductive ActiveMode where
  | Active
  | Passive
  | ActivePassive
  deriving Repr, DecidableEq

structure ProxyHandlerSDPConfig where
  remote_ice_username : String
  remote_ice_password : String
  fingerprint : String
  active_mode : ActiveMode
  deriving Repr, DecidableEq

/-- The `match v.as_str()` on the `setup` attribute value in `parse_sdp_config`
(src/sdp.rs lines 49-57): unrecognized values map to `ActivePassive`. -/
def parseSetupValue (v : String) : ActiveMode :=
  if v = "active" then ActiveMode.Active
  else if v = "passive" then ActiveMode.Passive
  else if v = "actpass" then ActiveMode.ActivePassive
  else ActiveMode.ActivePassive

/-- The running state of the scan in `parse_sdp_config`:
the three mutable `Option` locals (`ice_username`, `ice_password`, `active_mode`). -/
structure ParseScanState where
  ice_username : Option String
  ice_password : Option String
  active_mode : Option ActiveMode
  deriving Repr, DecidableEq

/-- One step of the attribute scan in `parse_sdp_config` (src/sdp.rs lines 37-63):
an attribute with key `ice-ufrag` / `ice-pwd` / `setup` and a `Some` value
overwrites the corresponding local; everything else is ignored. -/
def parseScanStep (st : ParseScanState) (a : Attribute) : ParseScanState :=
  if a.key = "ice-ufrag" then
    match a.value with
    | some v => { st with ice_username := some v }
    | none => st
  else if a.key = "ice-pwd" then
    match a.value with
    | some v => { st with ice_password := some v }
    | none => st
  else if a.key = "setup" then
    match a.value with
    | some v => { st with active_mode := some (parseSetupValue v) }
    | none => st
  else st

/-- The double loop over media descriptions and their attributes
in `parse_sdp_config` (src/sdp.rs lines 36-64). -/
def parseScan (media : List MediaDescription) : ParseScanState :=
  media.foldl (fun st m => m.attributes.foldl parseScanStep st)
    ⟨none, none, none⟩

/-- Embedding of `parse_sdp_config` (src/sdp.rs lines 27-90). -/
def parse_sdp_config (sdp : SessionDescription) (fingerprint : String) :
    Except OfferWebSocketError ProxyHandlerSDPConfig :=
  let st := parseScan sdp.media_descriptions
  match st.ice_username with
  | none => .error (.InvalidSDP "missing ice username")
  | some u =>
    match st.ice_password with
    | none => .error (.InvalidSDP "missing ice username")
    | some p =>
      match st.active_mode with
      | none => .error (.InvalidSDP "no active mode found")
      | some m =>
        .ok { remote_ice_username := u, remote_ice_password := p,
              fingerprint := fingerprint, active_mode := m }

/-- An attribute supplies an `ice-ufrag` value. -/
def suppliesUfrag (a : Attribute) : Bool := a.key == "ice-ufrag" && a.value.isSome

/-- An attribute supplies an `ice-pwd` value. -/
def suppliesPwd (a : Attribute) : Bool := a.key == "ice-pwd" && a.value.isSome

/-- An attribute supplies a `setup` value. -/
def suppliesSetup (a : Attribute) : Bool := a.key == "setup" && a.value.isSome

/-- Some media-section attribute of the SDP satisfies `p`. -/
def anyMediaAttr (sdp : SessionDescription) (p : Attribute → Bool) : Bool :=
  sdp.media_descriptions.any (fun m => m.attributes.any p)

/-! ## `create_answer` (embedding of src/sdp.rs lines 93-323) -/

/-- Field-by-field copy of an `Address` (src/sdp.rs lines 123-127 and 251-255). -/
def copyAddress (a : Address) : Address :=
  { address := a.address, ttl := a.ttl, range := a.range }

/-- Field-by-field copy of a `ConnectionInformation`
(src/sdp.rs lines 120-137 and 248-265). -/
def copyConnInfo (c : ConnectionInformation) : ConnectionInformation :=
  { network_type := c.network_type, address := c.address.map copyAddress,
    address_type := c.address_type }

/-- Field-by-field copy of a `Bandwidth` entry (src/sdp.rs lines 140-149, 268-277). -/
def copyBandwidth (b : Bandwidth) : Bandwidth :=
  { experimental := b.experimental, bandwidth_type := b.bandwidth_type,
    bandwidth := b.bandwidth }

/-- The per-attribute rewriting performed on each media-section attribute by
`create_answer` (src/sdp.rs lines 154-225). -/
def answerAttr (local_username local_password : String) (active_mode : ActiveMode)
    (fingerprint : String) (attr : Attribute) : Attribute :=
  if attr.key = "sendonly" then { key := "recvonly", value := none }
  else if attr.key = "sendrecv" then { key := "recvonly", value := none }
  else if attr.key = "ice-ufrag" then { key := attr.key, value := some local_username }
  else if attr.key = "ice-pwd" then { key := attr.key, value := some local_password }
  else if attr.key = "fingerprint" then
    { key := attr.key, value := some ("sha-256 " ++ fingerprint) }
  else if attr.key = "setup" then
    match active_mode with
    | ActiveMode.Active => { key := attr.key, value := some "passive" }
    | ActiveMode.ActivePassive => { key := attr.key, value := some "active" }
    | ActiveMode.Passive => { key := attr.key, value := some "active" }
  else { key := attr.key, value := attr.value }

/-- Construction of one answer media description from one offer media description
(src/sdp.rs lines 109-237).  Note the media-section `connection_information` is
copied from the *session-level* `offer_sdp.connection_information`, exactly as
the source does at line 120. -/
def answerMediaDescription (offer_sdp : SessionDescription)
    (local_username local_password : String) (active_mode : ActiveMode)
    (fingerprint : String) (md : MediaDescription) : MediaDescription :=
  { media_name :=
      { media := md.media_name.media,
        port := { value := md.media_name.port.value,
                  range := md.media_name.port.range },
        protos := md.media_name.protos, formats := md.media_name.formats },
    media_title := md.media_title,
    connection_information := offer_sdp.connection_information.map copyConnInfo,
    bandwidth := md.bandwidth.map copyBandwidth,
    encryption_key := md.encryption_key,
    attributes :=
      md.attributes.map (answerAttr local_username local_password active_mode fingerprint) }

/-- Copy of one time description (src/sdp.rs lines 282-305).  The source sets
each repeat time's `duration` from `repeat_time_attr.interval` (line 293); this
embedding reproduces that. -/
def answerTimeDescription (td : TimeDescription) : TimeDescription :=
  { timing := { start_time := td.timing.start_time,
                stop_time := td.timing.stop_time },
    repeat_times := td.repeat_times.map (fun r =>
      { interval := r.interval, duration := r.interval, offsets := r.offsets }) }

/-- Embedding of `create_answer` (src/sdp.rs lines 93-323).  The answer's
`time_zones` is the fresh empty vector of line 280, never filled. -/
def create_answer (offer_sdp : SessionDescription)
    (local_username local_password : String) (active_mode : ActiveMode)
    (fingerprint : String) : SessionDescription :=
  { version := offer_sdp.version,
    origin :=
      { username := offer_sdp.origin.username,
        session_id := offer_sdp.origin.session_id,
        session_version := offer_sdp.origin.session_version,
        network_type := offer_sdp.origin.network_type,
        address_type := offer_sdp.origin.address_type,
        unicast_address := offer_sdp.origin.unicast_address },
    session_name := offer_sdp.session_name,
    session_information := offer_sdp.session_information,
    uri := offer_sdp.uri,
    email_address := offer_sdp.email_address,
    phone_number := offer_sdp.phone_number,
    connection_information := offer_sdp.connection_information.map copyConnInfo,
    bandwidth := offer_sdp.bandwidth.map copyBandwidth,
    time_descriptions := offer_sdp.time_descriptions.map answerTimeDescription,
    time_zones := [],
    encryption_key := offer_sdp.encryption_key,
    attributes := offer_sdp.attributes.map (fun a => { key := a.key, value := a.value }),
    media_descriptions := offer_sdp.media_descriptions.map
      (answerMediaDescription offer_sdp local_username local_password active_mode fingerprint) }

/-- The complementary `setup` value written into the answer for a given
`active_mode` (src/sdp.rs lines 191-216). -/
def flipSetup (m : ActiveMode) : String :=
  match m with
  | ActiveMode.Active => "passive"
  | ActiveMode.Passive => "active"
  | ActiveMode.ActivePassive => "active"

/-! ## DTLS connector contexts and role selection
(embedding of src/dtls.rs and src/offer_websocket.rs lines 364-440) -/

/-- Which of the two OpenSSL context builders a context comes from. -/
inductive TlsContextKind where
  | connector
  | acceptor
  deriving Repr, DecidableEq

/-- The ICE operation the gateway performs. -/
inductive IceOp where
  | dial
  | accept
  deriving Repr, DecidableEq

/-- The DTLS handshake operation run over the stream. -/
inductive DtlsOp where
  | connect
  | accept
  deriving Repr, DecidableEq

/-- The argument `ssl_connector` passes to `set_tlsext_use_srtp`
(src/dtls.rs line 13). -/
def connectorSrtpString : String := "SRTP_AES128_CM_SHA1_80:SRTP_AES128_CM_SHA1_32"

/-- The argument `ssl_acceptor` passes to `set_tlsext_use_srtp`
(src/dtls.rs line 30). -/
def acceptorSrtpString : String := "SRTP_AES128_CM_SHA1_80:SRTP_AEAD_AES_128_GCM"

/-- The SRTP protection profiles a context advertises: the colon-separated
components of the `set_tlsext_use_srtp` argument (src/dtls.rs lines 13, 30),
written out; `connectorSrtpString` and `acceptorSrtpString` are recovered by
interposing `":"`. -/
def srtpProfilesOf (k : TlsContextKind) : List String :=
  match k with
  | TlsContextKind.connector => ["SRTP_AES128_CM_SHA1_80", "SRTP_AES128_CM_SHA1_32"]
  | TlsContextKind.acceptor => ["SRTP_AES128_CM_SHA1_80", "SRTP_AEAD_AES_128_GCM"]

/-- The `is_client` flag computed in `handle_end_of_candidates`
(src/offer_websocket.rs line 378): `cfg.active_mode == ActiveMode::Active`. -/
def isClientFor (m : ActiveMode) : Bool := m == ActiveMode.Active

/-- The ICE operation chosen in `handle_end_of_candidates`
(src/offer_websocket.rs lines 383-396): `setup_ice_client` dials,
`setup_ice_server` accepts. -/
def iceOpFor (m : ActiveMode) : IceOp :=
  if isClientFor m then IceOp.dial else IceOp.accept

/-- The TLS context `dtls_connect` builds (src/offer_websocket.rs line 425):
`ssl_client` — the connector — unconditionally, for either value of
`is_client`. -/
def dtlsContextUsed (_is_client : Bool) : TlsContextKind :=
  TlsContextKind.connector

/-- The handshake call `dtls_connect` makes (src/offer_websocket.rs
lines 430-434): `accept()` when `is_client`, `connect()` otherwise. -/
def dtlsOpOf (is_client : Bool) : DtlsOp :=
  if is_client then DtlsOp.accept else DtlsOp.connect

/-- The DTLS handshake operation the gateway runs for a given parsed
`active_mode`, composing `handle_end_of_candidates` with `dtls_connect`. -/
def dtlsOpFor (m : ActiveMode) : DtlsOp := dtlsOpOf (isClientFor m)

/-! ## SRTP keying-material extraction
(embedding of `extract_srtp_info`, src/offer_websocket.rs lines 505-549) -/

/-- The negotiated SRTP profile identifiers the code distinguishes
(`SrtpProfileId` values matched at src/offer_websocket.rs lines 513-525). -/
inductive SrtpProfileIdM where
  | SRTP_AES128_CM_SHA1_80
  | SRTP_AEAD_AES_128_GCM
  | other
  deriving Repr, DecidableEq

/-- `libsrtp`'s `SRTP_MAX_KEY_LEN` constant, imported by the source from
`srtp::sys` (src/offer_websocket.rs line 12). -/
def SRTP_MAX_KEY_LEN : Nat := 46

/-- The size of the export buffer `[0; SRTP_MAX_KEY_LEN as usize * 2]`
(src/offer_websocket.rs line 528): the number of bytes
`export_keying_material` is asked to produce. -/
def exportKeyingMaterialLen : Nat := SRTP_MAX_KEY_LEN * 2

/-- The exporter label passed to `export_keying_material`
(src/offer_websocket.rs line 531). -/
def exportLabel : String := "EXTRACTOR-dtls_srtp"

/-- The `(master_key_len, master_salt_len)` pair chosen per profile
(src/offer_websocket.rs lines 513-525); `none` models the
`InvalidProtectionProfile` arm. -/
def masterLens (p : SrtpProfileIdM) : Option (Nat × Nat) :=
  match p with
  | SrtpProfileIdM.SRTP_AES128_CM_SHA1_80 => some (16, 14)
  | SrtpProfileIdM.SRTP_AEAD_AES_128_GCM => some (16, 12)
  | SrtpProfileIdM.other => none

/-- `buf[rot_start..rot_end].rotate_left(n)` on a list: the sub-range
`[start, start+len)` is rotated left by `n`, the rest is untouched
(src/offer_websocket.rs line 537). -/
def rotateRegionLeft (buf : List Nat) (start len n : Nat) : List Nat :=
  buf.take start ++ ((buf.drop start).take len).rotateLeft n ++ buf.drop (start + len)

/-- The key-splitting core of `extract_srtp_info`
(src/offer_websocket.rs lines 529-540): given the per-profile key and salt
lengths and the exported buffer, rotate `buf[key_len .. key_len+key_len+salt_len]`
left by `key_len` and slice off `client_key = buf[..key_len+salt_len]`,
`server_key = buf[key_len+salt_len .. 2*(key_len+salt_len)]`. -/
def splitKeyingMaterial (master_key_len master_salt_len : Nat) (buf : List Nat) :
    List Nat × List Nat :=
  let master_len := master_key_len + master_salt_len
  let rotated := rotateRegionLeft buf master_key_len master_len master_key_len
  (rotated.take master_len, (rotated.drop master_len).take master_len)

/-- The `ProtectionProfile` struct stored on the handler
(src/offer_websocket.rs lines 122-126). -/
structure ProtectionProfile where
  kind : SrtpProfileIdM
  client_key : List Nat
  server_key : List Nat
  deriving Repr, DecidableEq

/-- Embedding of `extract_srtp_info` (src/offer_websocket.rs lines 505-549).
`selected` is the result of `ssl.selected_srtp_profile()` and `ekm` the
content `export_keying_material` wrote into the 92-byte buffer. -/
def extract_srtp_info (selected : Option SrtpProfileIdM) (ekm : List Nat) :
    Except OfferWebSocketError ProtectionProfile :=
  match selected with
  | none => .error .NoProtectionProfile
  | some p =>
    match masterLens p with
    | none => .error .InvalidProtectionProfile
    | some (master_key_len, master_salt_len) =>
      let (client_key, server_key) := splitKeyingMaterial master_key_len master_salt_len ekm
      .ok { kind := p, client_key := client_key, server_key := server_key }

/-! ## Endpoint adapter read
(embedding of `EndpointReadWrite::poll_read`, src/endpoint_read_write.rs
lines 23-45) -/

/-- Model of tokio's `ReadBuf`: a total capacity and the bytes filled so far. -/
structure ReadBuf where
  capacity : Nat
  filled : List Nat
  deriving Repr, DecidableEq

/-- `ReadBuf::remaining`. -/
def ReadBuf.remaining (b : ReadBuf) : Nat := b.capacity - b.filled.length

/-- `ReadBuf::put_slice`: appends `data` to the filled region; tokio's
implementation panics when `data.len()` exceeds the remaining capacity, which
this model renders as `none`. -/
def ReadBuf.put_slice (b : ReadBuf) (data : List Nat) : Option ReadBuf :=
  if data.length ≤ b.remaining then
    some { b with filled := b.filled ++ data }
  else
    none

/-- The I/O outcomes `poll_read` can produce. -/
inductive PollReadResult where
  | ok (buf : ReadBuf)
  | ioError
  deriving Repr, DecidableEq

/-- Embedding of `EndpointReadWrite::poll_read` (src/endpoint_read_write.rs
lines 24-44) in the `Poll::Ready` case: one `conn.recv` into a 1400-byte
stack buffer, then `buf_out.put_slice(&buf[0..bytes_read])`.  `recvResult` is
the single underlying packet (or the transport error); the outer `none`
models the panic of `put_slice` when the packet exceeds the caller buffer's
remaining capacity. -/
def pollRead (recvResult : Except Unit (List Nat)) (buf_out : ReadBuf) :
    Option PollReadResult :=
  match recvResult with
  | .error _ => some PollReadResult.ioError
  | .ok packet =>
    match buf_out.put_slice packet with
    | some b => some (PollReadResult.ok b)
    | none => none

/-! ## SRTP read loop (embedding of `read_srtp`, src/offer_websocket.rs
lines 460-503) -/

/-- One iteration's worth of external input to the `read_srtp` loop:
either `recv` fails, or a packet arrives; `is_rtp` is the value of
`match_srtp(&buf)` and `unprotect_fails` the outcome of the corresponding
`unprotect` / `unprotect_rtcp` call on it. -/
inductive SrtpEvent where
  | recvFail
  | packet (is_rtp : Bool) (unprotect_fails : Bool)
  deriving Repr, DecidableEq

/-- Error labels for the three `return` sites inside the loop body
(src/offer_websocket.rs lines 476, 491, 496); each surfaces as
`InternalError` via `log_error`. -/
inductive SrtpLoopError where
  | srtpRead
  | srtpUnprotect
  | srtcpUnprotect
  deriving Repr, DecidableEq

/-- The `loop { ... }` of `read_srtp` (src/offer_websocket.rs lines 472-500)
over a finite trace of events: the loop body's only exits are the three
error returns, so the result is `some e` when the trace makes one of them
fire and `none` when the trace is exhausted with the loop still running.
The Rust `Ok(())` after the loop is unreachable — the loop has no `break` —
so no success outcome exists. -/
def readSrtpLoop : List SrtpEvent → Option SrtpLoopError
  | [] => none
  | SrtpEvent.recvFail :: _ => some SrtpLoopError.srtpRead
  | SrtpEvent.packet is_rtp unprotect_fails :: rest =>
    if unprotect_fails then
      some (if is_rtp then SrtpLoopError.srtpUnprotect else SrtpLoopError.srtcpUnprotect)
    else
      readSrtpLoop rest

/-- An event the loop body survives. -/
def SrtpEvent.ok : SrtpEvent → Bool
  | SrtpEvent.recvFail => false
  | SrtpEvent.packet _ unprotect_fails => !unprotect_fails

/-- The error produced by a failing event. -/
def SrtpEvent.err : SrtpEvent → SrtpLoopError
  | SrtpEvent.recvFail => SrtpLoopError.srtpRead
  | SrtpEvent.packet is_rtp _ =>
    if is_rtp then SrtpLoopError.srtpUnprotect else SrtpLoopError.srtcpUnprotect

/-- The key `read_srtp` hands to `Session::with_inbound_template`
(src/offer_websocket.rs line 464): `protection_profile.server_key`. -/
def readSrtpSessionKey (profile : ProtectionProfile) : List Nat :=
  profile.server_key

/-! ## ProxyHandler signaling state machine
(embedding of src/offer_websocket.rs lines 88-620).  External effects —
agent construction, candidate gathering, websocket sends, ICE connect, the
DTLS handshake, SRTP traffic — are drawn from an explicit environment. -/

inductive ProxyAgentState where
  | New
  | Gathering
  | ICEReady
  deriving Repr, DecidableEq

inductive ProxyMessageState where
  | Offer
  | Candidate
  | CandidatesEnd
  deriving Repr, DecidableEq

/-- Position of a state along `Offer → Candidate → CandidatesEnd`. -/
def ProxyMessageState.rank : ProxyMessageState → Nat
  | ProxyMessageState.Offer => 0
  | ProxyMessageState.Candidate => 1
  | ProxyMessageState.CandidatesEnd => 2

/-- The mutable fields of `ProxyHandler` (src/offer_websocket.rs lines
128-137).  The websocket writer is pure I/O and carries no decidable state;
`ice_agent` and `mux` are modelled by whether they hold `Some`. -/
structure ProxyHandlerState where
  message_state : ProxyMessageState
  offer : Option SessionDescription
  sdp_config : Option ProxyHandlerSDPConfig
  ice_state : ProxyAgentState
  ice_agent : Bool
  mux : Bool
  protection_profile : Option ProtectionProfile
  deriving Repr, DecidableEq

/-- `ProxyHandler::new` (src/offer_websocket.rs lines 140-151). -/
def ProxyHandlerState.new : ProxyHandlerState :=
  { message_state := ProxyMessageState.Offer, offer := none, sdp_config := none,
    ice_state := ProxyAgentState.New, ice_agent := false, mux := false,
    protection_profile := none }

/-- Outcomes of every external call a session can make, fixed up front. -/
structure Env where
  unmarshal : String → Option SessionDescription
  agentNewOk : Bool
  fingerprintRes : Except Unit String
  gatherOk : Bool
  candidateSends : List Bool
  localUsername : String
  localPassword : String
  answerSendOk : Bool
  setRemoteCredsOk : Bool
  iceConnectOk : Bool
  dtlsHandshakeOk : Bool
  selectedProfile : Option SrtpProfileIdM
  ekm : List Nat
  srtpSessionOk : Bool
  srtpEvents : List SrtpEvent

/-- The candidate-response send loop of `start_handshake`
(src/offer_websocket.rs lines 252-260): sends stop at the first failure,
which surfaces as `WebSocketWriteError`. -/
def sendLoop : List Bool → Except OfferWebSocketError Unit
  | [] => .ok ()
  | true :: rest => sendLoop rest
  | false :: _ => .error .WebSocketWriteError

/-- Embedding of `start_handshake` (src/offer_websocket.rs lines 174-265).
Mutation order follows the source: nothing is written before agent creation
and fingerprint computation succeed; `ice_agent` is assigned (line 198)
before `parse_sdp_config` can fail (line 199); `sdp_config`, `offer` and
`ice_state` are assigned only on parse success (lines 199-201). -/
def start_handshake (st : ProxyHandlerState) (offer : SessionDescription)
    (env : Env) : ProxyHandlerState × Except OfferWebSocketError Unit :=
  if !env.agentNewOk then
    (st, .error .InvalidAgentConfig)
  else
    match env.fingerprintRes with
    | .error _ => (st, .error (.InternalError "CreateFingerprintError"))
    | .ok fp =>
      let st1 := { st with ice_agent := true }
      match parse_sdp_config offer fp with
      | .error e => (st1, .error e)
      | .ok cfg =>
        let st2 := { st1 with sdp_config := some cfg, offer := some offer,
                               ice_state := ProxyAgentState.Gathering }
        if !env.gatherOk then
          (st2, .error .GatheringError)
        else
          (st2, sendLoop env.candidateSends)

/-- Embedding of `handle_offer` (src/offer_websocket.rs lines 583-595):
unmarshal the SDP text, set `message_state := Candidate`, then run
`start_handshake`. -/
def handle_offer (st : ProxyHandlerState) (sdpText : String) (env : Env) :
    ProxyHandlerState × Except OfferWebSocketError Unit :=
  match env.unmarshal sdpText with
  | none => (st, .error (.InvalidSDP "failed to parse"))
  | some offer =>
    start_handshake { st with message_state := ProxyMessageState.Candidate } offer env

/-- Embedding of `handle_end_of_candidates` (src/offer_websocket.rs lines
364-400) together with the helpers it calls: `create_answer` (lines 342-362),
`setup_ice_client`/`setup_ice_server` (lines 267-316), `add_mux` (402-416),
`dtls_connect` (418-440), `extract_srtp_info` (505-549) and `read_srtp`
(460-503).  A `.ok ()` result means the supplied SRTP trace was exhausted
with the read loop still running — the loop itself has no success exit. -/
def handle_end_of_candidates (st : ProxyHandlerState) (env : Env) :
    ProxyHandlerState × Except OfferWebSocketError Unit :=
  match st.sdp_config with
  | none => (st, .error (.InternalError "NoSdpConfig"))
  | some cfg =>
    if !st.ice_agent then
      (st, .error (.InternalError "NoIceAgent"))
    else
      match st.offer with
      | none => (st, .error (.InternalError "CreateAnswerError"))
      | some offer =>
        let _answer := create_answer offer env.localUsername env.localPassword
          cfg.active_mode cfg.fingerprint
        if !env.answerSendOk then
          (st, .error .WebSocketWriteError)
        else
          let is_client := isClientFor cfg.active_mode
          let iceRes : Except OfferWebSocketError Unit :=
            if is_client then
              if env.iceConnectOk then .ok () else .error (.InternalError "IceClientSetupError")
            else
              if !env.setRemoteCredsOk then .error (.InternalError "IceRemoteCredsError")
              else if env.iceConnectOk then .ok ()
              else .error (.InternalError "IceConnectError")
          match iceRes with
          | .error e => (st, .error e)
          | .ok _ =>
            let st1 := { st with mux := true }
            if !env.dtlsHandshakeOk then
              (st1, .error (.InternalError "DtlsStreamConnectError"))
            else
              match extract_srtp_info env.selectedProfile env.ekm with
              | .error e => (st1, .error e)
              | .ok profile =>
                let st2 := { st1 with protection_profile := some profile }
                if profile.kind == SrtpProfileIdM.other then
                  (st2, .error .InvalidProtectionProfile)
                else if !env.srtpSessionOk then
                  (st2, .error (.InternalError "srtp protection setup"))
                else
                  match readSrtpLoop env.srtpEvents with
                  | some SrtpLoopError.srtpRead =>
                    (st2, .error (.InternalError "SRTPRead"))
                  | some SrtpLoopError.srtpUnprotect =>
                    (st2, .error (.InternalError "srtp unprotect"))
                  | some SrtpLoopError.srtcpUnprotect =>
                    (st2, .error (.InternalError "srtcp unprotect"))
                  | none => (st2, .ok ())

/-- Embedding of `handle_candidate` (src/offer_websocket.rs lines 551-581):
requires the ICE agent; an empty candidate string moves the state to
`CandidatesEnd` and runs `handle_end_of_candidates`; a malformed remote
candidate is only logged. -/
def handle_candidate (st : ProxyHandlerState) (candidate : String) (env : Env) :
    ProxyHandlerState × Except OfferWebSocketError Unit :=
  if !st.ice_agent then
    (st, .error (.InternalError "WsMissingIceAgentError"))
  else if candidate.length == 0 then
    handle_end_of_candidates
      { st with message_state := ProxyMessageState.CandidatesEnd } env
  else
    (st, .ok ())

/-- An inbound websocket message, represented by the results of the two JSON
parses `handle_message` can apply to it: as a `WSRequestOffer` (its `sdp`
field) and as a `WSRequestCandidate` (its `candidate` field). -/
structure InboundMessage where
  asOffer : Option String
  asCandidate : Option String

/-- Embedding of `handle_message` (src/offer_websocket.rs lines 597-615):
dispatch on the current `message_state`; in `CandidatesEnd` the wildcard arm
does nothing. -/
def handle_message (st : ProxyHandlerState) (msg : InboundMessage) (env : Env) :
    ProxyHandlerState × Except OfferWebSocketError Unit :=
  match st.message_state with
  | ProxyMessageState.Offer =>
    match msg.asOffer with
    | none => (st, .error .ParseFailed)
    | some sdpText => handle_offer st sdpText env
  | ProxyMessageState.Candidate =>
    match msg.asCandidate with
    | none => (st, .error .ParseFailed)
    | some c => handle_candidate st c env
  | ProxyMessageState.CandidatesEnd => (st, .ok ())

/-! ## Concrete fixtures for witnesses and counterexamples -/

/-- A minimal session description, used as a base for concrete inputs. -/
def emptySDP : SessionDescription :=
  { version := 0,
    origin := { username := "-", session_id := 1, session_version := 2,
                network_type := "IN", address_type := "IP4",
                unicast_address := "127.0.0.1" },
    session_name := "-", session_information := none, uri := none,
    email_address := none, phone_number := none,
    connection_information := none, bandwidth := [], time_descriptions := [],
    time_zones := [], encryption_key := none, attributes := [],
    media_descriptions := [] }

/-- A media description carrying the given attributes. -/
def mediaWith (attrs : List Attribute) : MediaDescription :=
  { media_name := { media := "audio", port := { value := 9, range := none },
                    protos := ["UDP", "TLS", "RTP", "SAVPF"], formats := ["111"] },
    media_title := none, connection_information := none, bandwidth := [],
    encryption_key := none, attributes := attrs }

/-- An offer whose single media section carries ICE credentials and
`a=setup:actpass`. -/
def offerActpass : SessionDescription :=
  { emptySDP with media_descriptions :=
      [mediaWith [ { key := "ice-ufrag", value := some "abc" },
                   { key := "ice-pwd", value := some "xyz123456789" },
                   { key := "setup", value := some "actpass" },
                   { key := "sendrecv", value := none } ]] }

/-- An environment in which every external call succeeds and no candidates or
packets arrive; `unmarshal` always yields `offerActpass`. -/
def envOk : Env :=
  { unmarshal := fun _ => some offerActpass, agentNewOk := true,
    fingerprintRes := .ok "AA:BB", gatherOk := true, candidateSends := [],
    localUsername := "localu", localPassword := "localp", answerSendOk := true,
    setRemoteCredsOk := true, iceConnectOk := true, dtlsHandshakeOk := true,
    selectedProfile := some SrtpProfileIdM.SRTP_AES128_CM_SHA1_80,
    ekm := List.replicate 92 0, srtpSessionOk := true, srtpEvents := [] }

/-! ## Claims -/

/-- C1, counterexample: the claim says an offer with `active_mode = Active`
makes the gateway run the DTLS handshake in the client role (`connect`); on
the code, `handle_end_of_candidates` passes `is_client = true` to
`dtls_connect`, which then calls `accept()` — the server role. -/
theorem C1_counterexample : dtlsOpFor ActiveMode.Active ≠ DtlsOp.connect := by
  decide

/-- C1, amended: for `active_mode = Active` the gateway performs the ICE dial
and then runs the DTLS handshake in the *server* role (`accept`); for
`Passive` and `ActivePassive` it performs the ICE accept and runs the DTLS
handshake in the *client* role (`connect`) — the ICE halves of the claim
hold, the DTLS roles are the opposite of the claimed ones. -/
theorem C1_amended_roles :
    iceOpFor ActiveMode.Active = IceOp.dial ∧
    dtlsOpFor ActiveMode.Active = DtlsOp.accept ∧
    iceOpFor ActiveMode.Passive = IceOp.accept ∧
    dtlsOpFor ActiveMode.Passive = DtlsOp.connect ∧
    iceOpFor ActiveMode.ActivePassive = IceOp.accept ∧
    dtlsOpFor ActiveMode.ActivePassive = DtlsOp.connect := by
  decide

/-- C4, counterexample: the claim says the DTLS connector builds a server TLS
context when the gateway's negotiated role is server, and that the server
role additionally advertises `SRTP_AEAD_AES_128_GCM`.  On the code,
`dtls_connect` with `is_client = true` runs `accept()` (the server role) yet
builds the context with `ssl_client` — the connector — whose advertised
profiles do not include `SRTP_AEAD_AES_128_GCM`. -/
theorem C4_counterexample :
    dtlsOpOf true = DtlsOp.accept ∧
    dtlsContextUsed true ≠ TlsContextKind.acceptor ∧
    "SRTP_AEAD_AES_128_GCM" ∉ srtpProfilesOf (dtlsContextUsed true) := by
  decide

/-- C4, amended: `dtls_connect` builds the connector (client) TLS context for
either role.  The connector context advertises `SRTP_AES128_CM_SHA1_80` and
`SRTP_AES128_CM_SHA1_32`; the acceptor context built by `ssl_server` (which
`dtls_connect` never uses) advertises `SRTP_AES128_CM_SHA1_80` and
`SRTP_AEAD_AES_128_GCM`.  The profile lists are the colon-separated
components of the strings passed to `set_tlsext_use_srtp`. -/
theorem C4_amended_contexts :
    (∀ b : Bool, dtlsContextUsed b = TlsContextKind.connector) ∧
    srtpProfilesOf TlsContextKind.connector =
      ["SRTP_AES128_CM_SHA1_80", "SRTP_AES128_CM_SHA1_32"] ∧
    srtpProfilesOf TlsContextKind.acceptor =
      ["SRTP_AES128_CM_SHA1_80", "SRTP_AEAD_AES_128_GCM"] ∧
    String.intercalate ":" (srtpProfilesOf TlsContextKind.connector) =
      connectorSrtpString ∧
    String.intercalate ":" (srtpProfilesOf TlsContextKind.acceptor) =
      acceptorSrtpString := by
  decide

/-- C5, code bug: the claim says the answer's session-level fields — origin,
timing with repeat intervals, durations and offsets, time zones, bandwidth,
connection information — equal the offer's.  On an offer whose repeat time
has `interval = 1` and `duration = 2` and whose time-zone list is nonempty,
`create_answer` copies `duration` from the offer's *interval* (src/sdp.rs
line 293) and leaves `time_zones` as the never-filled empty vector
(src/sdp.rs line 280). -/
theorem C5_code_bug_eval :
    (create_answer
        { emptySDP with
            time_descriptions := [⟨⟨10, 20⟩, [⟨1, 2, [3]⟩]⟩],
            time_zones := [⟨4, 5⟩] }
        "u" "p" ActiveMode.Active "F").time_descriptions
      = [⟨⟨10, 20⟩, [⟨1, 1, [3]⟩]⟩] ∧
    (create_answer
        { emptySDP with
            time_descriptions := [⟨⟨10, 20⟩, [⟨1, 2, [3]⟩]⟩],
            time_zones := [⟨4, 5⟩] }
        "u" "p" ActiveMode.Active "F").time_zones = [] := by
  decide

/-- C2, counterexample: the claim says `extract_srtp_info` exports
`2 × (key_length + salt_length)` bytes.  The code fills a fixed buffer of
`SRTP_MAX_KEY_LEN * 2 = 92` bytes (src/offer_websocket.rs line 528), which
for the `SRTP_AES128_CM_SHA1_80` profile — key length 16, salt length 14 —
is not `2 × (16 + 14) = 60`. -/
theorem C2_counterexample :
    masterLens SrtpProfileIdM.SRTP_AES128_CM_SHA1_80 = some (16, 14) ∧
    exportKeyingMaterialLen ≠ 2 * (16 + 14) := by
  decide

/-- Helper: rotating the region `[k, 2k+s)` of `[a][b][c][d][rest]` left by
`k` and slicing two `(k+s)`-blocks yields `(a ++ c, b ++ d)`. -/
theorem splitKeyingMaterial_layout (k s : Nat) (hk : 0 < k) (hs : 0 < s)
    (a b c d rest : List Nat) (ha : a.length = k) (hb : b.length = k)
    (hc : c.length = s) (hd : d.length = s) :
    splitKeyingMaterial k s (a ++ b ++ c ++ d ++ rest) = (a ++ c, b ++ d) := by
  have hassoc1 : a ++ b ++ c ++ d ++ rest = a ++ ((b ++ c) ++ (d ++ rest)) := by
    simp [List.append_assoc]
  have htakek : (a ++ b ++ c ++ d ++ rest).take k = a := by
    rw [hassoc1]; exact List.take_left' ha
  have hdropk : (a ++ b ++ c ++ d ++ rest).drop k = (b ++ c) ++ (d ++ rest) := by
    rw [hassoc1]; exact List.drop_left' ha
  have hregion : ((b ++ c) ++ (d ++ rest)).take (k + s) = b ++ c :=
    List.take_left' (by simp [hb, hc])
  have hrot : (b ++ c).rotateLeft k = c ++ b := by
    unfold List.rotateLeft
    rw [if_neg (by simp only [List.length_append, hb, hc]; omega)]
    have hmod : k % (b ++ c).length = k := by
      rw [List.length_append, hb, hc]; exact Nat.mod_eq_of_lt (by omega)
    simp only [hmod, List.drop_left' hb, List.take_left' hb]
  have hdrop2 : (a ++ b ++ c ++ d ++ rest).drop (k + (k + s)) = d ++ rest := by
    have h2 : a ++ b ++ c ++ d ++ rest = (a ++ b ++ c) ++ (d ++ rest) := by
      simp [List.append_assoc]
    rw [h2]
    exact List.drop_left' (by simp only [List.length_append, ha, hb, hc]; omega)
  have hR : rotateRegionLeft (a ++ b ++ c ++ d ++ rest) k (k + s) k =
      a ++ (c ++ b) ++ (d ++ rest) := by
    unfold rotateRegionLeft
    rw [htakek, hdropk, hregion, hrot, hdrop2]
  have hclient : (a ++ (c ++ b) ++ (d ++ rest)).take (k + s) = a ++ c := by
    have h3 : a ++ (c ++ b) ++ (d ++ rest) = (a ++ c) ++ (b ++ (d ++ rest)) := by
      simp [List.append_assoc]
    rw [h3]; exact List.take_left' (by simp [ha, hc])
  have hserver : ((a ++ (c ++ b) ++ (d ++ rest)).drop (k + s)).take (k + s) = b ++ d := by
    have h4 : a ++ (c ++ b) ++ (d ++ rest) = (a ++ c) ++ ((b ++ d) ++ rest) := by
      simp [List.append_assoc]
    rw [h4, List.drop_left' (by simp [ha, hc]), List.take_left' (by simp [hb, hd])]
  unfold splitKeyingMaterial
  simp only []
  rw [hR, hclient, hserver]

/-- C2, amended: `extract_srtp_info` exports `2 × SRTP_MAX_KEY_LEN = 92`
bytes (not `2 × (key_length + salt_length)`) under the label
`"EXTRACTOR-dtls_srtp"`; with `(key_length, salt_length) = (16, 14)` for
`SRTP_AES128_CM_SHA1_80` and `(16, 12)` for `SRTP_AEAD_AES_128_GCM`, and the
exported buffer laid out as `[client_key][server_key][client_salt][server_salt]`
followed by the unused tail of the 92-byte buffer, it rotates the region
starting at offset `key_length` left by `key_length` bytes and produces
`client_key = ekm[0..k] ++ ekm[2k..2k+s]` and
`server_key = ekm[k..2k] ++ ekm[2k+s..2k+2s]`. -/
theorem C2_amended_key_derivation :
    ∀ (p : SrtpProfileIdM) (k s : Nat) (a b c d rest : List Nat),
      masterLens p = some (k, s) →
      a.length = k → b.length = k → c.length = s → d.length = s →
      extract_srtp_info (some p) (a ++ b ++ c ++ d ++ rest) =
        .ok { kind := p, client_key := a ++ c, server_key := b ++ d } ∧
      exportLabel = "EXTRACTOR-dtls_srtp" ∧
      exportKeyingMaterialLen = 2 * SRTP_MAX_KEY_LEN := by
  intro p k s a b c d rest hp ha hb hc hd
  refine ⟨?_, rfl, rfl⟩
  have hks : 0 < k ∧ 0 < s := by
    cases p <;> simp [masterLens] at hp <;> omega
  have hsplit := splitKeyingMaterial_layout k s hks.1 hks.2 a b c d rest ha hb hc hd
  simp only [List.append_assoc] at hsplit
  simp [extract_srtp_info, hp, hsplit]

/-- C2, witness: the amended derivation evaluated on a concrete 92-byte
buffer for the `SRTP_AES128_CM_SHA1_80` profile. -/
theorem C2_witness :
    extract_srtp_info (some SrtpProfileIdM.SRTP_AES128_CM_SHA1_80)
      (List.replicate 16 1 ++ List.replicate 16 2 ++ List.replicate 14 3 ++
        List.replicate 14 4 ++ List.replicate 32 5) =
      .ok { kind := SrtpProfileIdM.SRTP_AES128_CM_SHA1_80,
            client_key := List.replicate 16 1 ++ List.replicate 14 3,
            server_key := List.replicate 16 2 ++ List.replicate 14 4 } :=
  (C2_amended_key_derivation SrtpProfileIdM.SRTP_AES128_CM_SHA1_80 16 14
    (List.replicate 16 1) (List.replicate 16 2) (List.replicate 14 3)
    (List.replicate 14 4) (List.replicate 32 5) rfl (by decide) (by decide)
    (by decide) (by decide)).1

/-- C9, counterexample: the claim says the endpoint adapter's read completes
without fault for every packet length up to the MTU and every caller
capacity, including capacities smaller than the packet.  On the code,
`poll_read` copies the whole received packet with `buf_out.put_slice`
(src/endpoint_read_write.rs line 35), which panics when the packet exceeds
the caller buffer's remaining capacity: a 2-byte packet against a caller
buffer with capacity 1 faults (`none` models the panic). -/
theorem C9_counterexample : pollRead (Except.ok [7, 8]) ⟨1, []⟩ = none := by
  decide

/-- C9, amended: `poll_read` fetches at most one underlying packet per call
and appends all of its bytes to the caller's buffer; the call completes
without fault exactly when the packet fits the caller's remaining capacity,
and panics (models as `none`) when the packet is larger; a transport error
surfaces as an I/O error. -/
theorem C9_amended_poll_read :
    ∀ (packet : List Nat) (buf_out : ReadBuf),
      (packet.length ≤ buf_out.remaining →
        pollRead (Except.ok packet) buf_out =
          some (PollReadResult.ok
            { capacity := buf_out.capacity, filled := buf_out.filled ++ packet })) ∧
      (buf_out.remaining < packet.length →
        pollRead (Except.ok packet) buf_out = none) ∧
      pollRead (Except.error ()) buf_out = some PollReadResult.ioError := by
  intro packet buf_out
  refine ⟨?_, ?_, rfl⟩
  · intro h
    simp [pollRead, ReadBuf.put_slice, h]
  · intro h
    simp [pollRead, ReadBuf.put_slice,
      show ¬(packet.length ≤ buf_out.remaining) from by omega]

/-- C9, witness: a 2-byte packet into a buffer with 4 free bytes completes;
the same packet into a buffer with 1 free byte faults. -/
theorem C9_witness :
    pollRead (Except.ok [1, 2]) ⟨5, [0]⟩ =
      some (PollReadResult.ok ⟨5, [0, 1, 2]⟩) ∧
    pollRead (Except.ok [1, 2]) ⟨2, [0]⟩ = none := by
  constructor
  · have h := (C9_amended_poll_read [1, 2] ⟨5, [0]⟩).1 (by decide)
    simpa using h
  · exact (C9_amended_poll_read [1, 2] ⟨2, [0]⟩).2.1 (by decide)

/-- C8: `read_srtp` keys its inbound protection session with the protection
profile's server key block; over any run of its read loop, the first `recv`
failure or the first `unprotect`/`unprotect_rtcp` failure terminates the
loop with that error, a run of successfully processed packets leaves the
loop still running, and the loop has no success exit (the `Ok(())` after
`loop` in src/offer_websocket.rs line 502 is unreachable, which the model
renders by `readSrtpLoop` having no success result). -/
theorem C8_read_srtp :
    (∀ profile : ProtectionProfile,
      readSrtpSessionKey profile = profile.server_key) ∧
    (∀ (pre : List SrtpEvent) (ev : SrtpEvent) (post : List SrtpEvent),
      (∀ e ∈ pre, e.ok = true) → ev.ok = false →
      readSrtpLoop (pre ++ ev :: post) = some ev.err) ∧
    (∀ events : List SrtpEvent,
      (∀ e ∈ events, e.ok = true) → readSrtpLoop events = none) := by
  refine ⟨fun _ => rfl, ?_, ?_⟩
  · intro pre ev post
    induction pre with
    | nil =>
      intro _ hev
      cases ev with
      | recvFail => simp [readSrtpLoop, SrtpEvent.err]
      | packet r u =>
        simp [SrtpEvent.ok] at hev
        simp [readSrtpLoop, SrtpEvent.err, hev]
    | cons e rest ih =>
      intro hpre hev
      have he : e.ok = true := hpre e (by simp)
      have hrest : ∀ x ∈ rest, x.ok = true := fun x hx => hpre x (by simp [hx])
      cases e with
      | recvFail => simp [SrtpEvent.ok] at he
      | packet r u =>
        simp [SrtpEvent.ok] at he
        simp only [List.cons_append, readSrtpLoop, he, if_false]
        exact ih hrest hev
  · intro events
    induction events with
    | nil => intro _; rfl
    | cons e rest ih =>
      intro h
      have he : e.ok = true := h e (by simp)
      have hrest : ∀ x ∈ rest, x.ok = true := fun x hx => h x (by simp [hx])
      cases e with
      | recvFail => simp [SrtpEvent.ok] at he
      | packet r u =>
        simp [SrtpEvent.ok] at he
        simp only [readSrtpLoop, he, if_false]
        exact ih hrest

/-- C8, witness: a successful RTP packet followed by a `recv` failure ends
the loop with the read error; two successful packets leave it running. -/
theorem C8_witness :
    readSrtpLoop [SrtpEvent.packet true false, SrtpEvent.recvFail] =
      some SrtpLoopError.srtpRead ∧
    readSrtpLoop [SrtpEvent.packet true false, SrtpEvent.packet false false] =
      none := by
  constructor
  · have h := C8_read_srtp.2.1 [SrtpEvent.packet true false] SrtpEvent.recvFail []
      (by decide) (by decide)
    simpa [SrtpEvent.err] using h
  · exact C8_read_srtp.2.2
      [SrtpEvent.packet true false, SrtpEvent.packet false false] (by decide)

/-- Helper: one scan step sets `ice_username` iff it was set or the attribute
supplies an `ice-ufrag` value. -/
theorem parseScanStep_ufrag (st : ParseScanState) (a : Attribute) :
    (parseScanStep st a).ice_username.isSome =
      (st.ice_username.isSome || suppliesUfrag a) := by
  unfold parseScanStep
  split_ifs with h1 h2 h3 <;> cases hv : a.value <;>
    simp_all [suppliesUfrag]

/-- Helper: one scan step sets `ice_password` iff it was set or the attribute
supplies an `ice-pwd` value. -/
theorem parseScanStep_pwd (st : ParseScanState) (a : Attribute) :
    (parseScanStep st a).ice_password.isSome =
      (st.ice_password.isSome || suppliesPwd a) := by
  unfold parseScanStep
  split_ifs with h1 h2 h3 <;> cases hv : a.value <;>
    simp_all [suppliesPwd]

/-- Helper: one scan step sets `active_mode` iff it was set or the attribute
supplies a `setup` value. -/
theorem parseScanStep_setup (st : ParseScanState) (a : Attribute) :
    (parseScanStep st a).active_mode.isSome =
      (st.active_mode.isSome || suppliesSetup a) := by
  unfold parseScanStep
  split_ifs with h1 h2 h3 <;> cases hv : a.value <;>
    simp_all [suppliesSetup]

/-- Helper: the attribute-level fold, `ice_username` component. -/
theorem foldl_scan_ufrag (attrs : List Attribute) (st : ParseScanState) :
    (attrs.foldl parseScanStep st).ice_username.isSome =
      (st.ice_username.isSome || attrs.any suppliesUfrag) := by
  induction attrs generalizing st with
  | nil => simp
  | cons a rest ih =>
    simp [List.foldl_cons, List.any_cons, ih, parseScanStep_ufrag, Bool.or_assoc]

/-- Helper: the attribute-level fold, `ice_password` component. -/
theorem foldl_scan_pwd (attrs : List Attribute) (st : ParseScanState) :
    (attrs.foldl parseScanStep st).ice_password.isSome =
      (st.ice_password.isSome || attrs.any suppliesPwd) := by
  induction attrs generalizing st with
  | nil => simp
  | cons a rest ih =>
    simp [List.foldl_cons, List.any_cons, ih, parseScanStep_pwd, Bool.or_assoc]

/-- Helper: the attribute-level fold, `active_mode` component. -/
theorem foldl_scan_setup (attrs : List Attribute) (st : ParseScanState) :
    (attrs.foldl parseScanStep st).active_mode.isSome =
      (st.active_mode.isSome || attrs.any suppliesSetup) := by
  induction attrs generalizing st with
  | nil => simp
  | cons a rest ih =>
    simp [List.foldl_cons, List.any_cons, ih, parseScanStep_setup, Bool.or_assoc]

/-- Helper: the media-level fold, all three components at once. -/
theorem foldl_media_scan (media : List MediaDescription) (st : ParseScanState) :
    ((media.foldl (fun st m => m.attributes.foldl parseScanStep st) st).ice_username.isSome =
      (st.ice_username.isSome || media.any (fun m => m.attributes.any suppliesUfrag))) ∧
    ((media.foldl (fun st m => m.attributes.foldl parseScanStep st) st).ice_password.isSome =
      (st.ice_password.isSome || media.any (fun m => m.attributes.any suppliesPwd))) ∧
    ((media.foldl (fun st m => m.attributes.foldl parseScanStep st) st).active_mode.isSome =
      (st.active_mode.isSome || media.any (fun m => m.attributes.any suppliesSetup))) := by
  induction media generalizing st with
  | nil => simp
  | cons m rest ih =>
    refine ⟨?_, ?_, ?_⟩ <;>
      simp [List.foldl_cons, List.any_cons, (ih _).1, (ih _).2.1, (ih _).2.2,
        foldl_scan_ufrag, foldl_scan_pwd, foldl_scan_setup, Bool.or_assoc]

/-- Helper: `parseScan` presence facts in terms of `anyMediaAttr`. -/
theorem parseScan_presence (sdp : SessionDescription) :
    ((parseScan sdp.media_descriptions).ice_username.isSome =
      anyMediaAttr sdp suppliesUfrag) ∧
    ((parseScan sdp.media_descriptions).ice_password.isSome =
      anyMediaAttr sdp suppliesPwd) ∧
    ((parseScan sdp.media_descriptions).active_mode.isSome =
      anyMediaAttr sdp suppliesSetup) := by
  have h := foldl_media_scan sdp.media_descriptions ⟨none, none, none⟩
  unfold parseScan anyMediaAttr
  simpa using h

/-- Helper: an unrecognized `setup` value parses to `ActivePassive`. -/
theorem parseSetupValue_unrecognized (v : String) (h1 : v ≠ "active")
    (h2 : v ≠ "passive") (h3 : v ≠ "actpass") :
    parseSetupValue v = ActiveMode.ActivePassive := by
  unfold parseSetupValue
  rw [if_neg h1, if_neg h2, if_neg h3]

/-- Every `setup` value supplied by a media-section attribute is none of
`active`, `passive`, `actpass`. -/
def allSetupValuesUnrecognized (sdp : SessionDescription) : Bool :=
  sdp.media_descriptions.all fun m => m.attributes.all fun a =>
    if a.key = "setup" then
      match a.value with
      | some v => !(v == "active") && !(v == "passive") && !(v == "actpass")
      | none => true
    else true

/-- Helper: one scan step keeps `active_mode` in `{none, some ActivePassive}`
when the attribute cannot supply a recognized setup value. -/
theorem parseScanStep_mode_ap (st : ParseScanState) (a : Attribute)
    (hst : st.active_mode = none ∨ st.active_mode = some ActiveMode.ActivePassive)
    (ha : (if a.key = "setup" then
            match a.value with
            | some v => !(v == "active") && !(v == "passive") && !(v == "actpass")
            | none => true
          else true) = true) :
    (parseScanStep st a).active_mode = none ∨
      (parseScanStep st a).active_mode = some ActiveMode.ActivePassive := by
  unfold parseScanStep
  split_ifs with h1 h2 h3 <;> cases hv : a.value with
  | _ =>
    first
    | exact hst
    | (simp only [h3, if_pos, hv] at ha
       right
       simp only [Bool.and_eq_true, Bool.not_eq_true', beq_eq_false_iff_ne] at ha
       simp [parseSetupValue_unrecognized _ ha.1.1 ha.1.2 ha.2])

/-- Helper: the attribute-level fold keeps `active_mode` in
`{none, some ActivePassive}` when no attribute supplies a recognized value. -/
theorem foldl_scan_mode_ap (attrs : List Attribute) :
    ∀ st : ParseScanState,
      (st.active_mode = none ∨ st.active_mode = some ActiveMode.ActivePassive) →
      (attrs.all (fun a => if a.key = "setup" then
          match a.value with
          | some v => !(v == "active") && !(v == "passive") && !(v == "actpass")
          | none => true
        else true) = true) →
      ((attrs.foldl parseScanStep st).active_mode = none ∨
        (attrs.foldl parseScanStep st).active_mode = some ActiveMode.ActivePassive) := by
  induction attrs with
  | nil => exact fun st hst _ => hst
  | cons a rest ih =>
    intro st hst hall
    simp only [List.all_cons, Bool.and_eq_true] at hall
    exact ih _ (parseScanStep_mode_ap st a hst hall.1) hall.2

/-- Helper: the media-level fold keeps `active_mode` in
`{none, some ActivePassive}` under the same condition. -/
theorem foldl_media_mode_ap (media : List MediaDescription) :
    ∀ st : ParseScanState,
      (st.active_mode = none ∨ st.active_mode = some ActiveMode.ActivePassive) →
      (media.all (fun m => m.attributes.all (fun a => if a.key = "setup" then
          match a.value with
          | some v => !(v == "active") && !(v == "passive") && !(v == "actpass")
          | none => true
        else true)) = true) →
      (((media.foldl (fun st m => m.attributes.foldl parseScanStep st) st).active_mode = none) ∨
        ((media.foldl (fun st m => m.attributes.foldl parseScanStep st) st).active_mode =
          some ActiveMode.ActivePassive)) := by
  induction media with
  | nil => exact fun st hst _ => hst
  | cons m rest ih =>
    intro st hst hall
    simp only [List.all_cons, Bool.and_eq_true] at hall
    exact ih _ (foldl_scan_mode_ap m.attributes st hst hall.1) hall.2

/-- Helper: the scan keeps `active_mode` in `{none, some ActivePassive}` when
every supplied `setup` value is unrecognized. -/
theorem parseScan_mode_ap (sdp : SessionDescription)
    (hall : allSetupValuesUnrecognized sdp = true) :
    (parseScan sdp.media_descriptions).active_mode = none ∨
      (parseScan sdp.media_descriptions).active_mode = some ActiveMode.ActivePassive := by
  unfold allSetupValuesUnrecognized at hall
  unfold parseScan
  exact foldl_media_mode_ap sdp.media_descriptions ⟨none, none, none⟩ (Or.inl rfl) hall

/-- C6: `parse_sdp_config` returns an error — always an `InvalidSDP` — if and
only if no media-section attribute supplies an `ice-ufrag` value, or none
supplies an `ice-pwd` value, or none supplies a `setup` value; and when the
credentials and a `setup` value are present but every supplied `setup` value
is unrecognized, it succeeds with `active_mode = ActivePassive` instead of
failing. -/
theorem C6_parse_sdp_config :
    ∀ (sdp : SessionDescription) (fp : String),
      ((∃ e, parse_sdp_config sdp fp = .error e) ↔
        (anyMediaAttr sdp suppliesUfrag = false ∨
         anyMediaAttr sdp suppliesPwd = false ∨
         anyMediaAttr sdp suppliesSetup = false)) ∧
      (∀ e, parse_sdp_config sdp fp = .error e →
        ∃ msg, e = OfferWebSocketError.InvalidSDP msg) ∧
      (allSetupValuesUnrecognized sdp = true →
        anyMediaAttr sdp suppliesSetup = true →
        anyMediaAttr sdp suppliesUfrag = true →
        anyMediaAttr sdp suppliesPwd = true →
        ∃ cfg, parse_sdp_config sdp fp = .ok cfg ∧
          cfg.active_mode = ActiveMode.ActivePassive) := by
  intro sdp fp
  obtain ⟨hu, hpw, hs⟩ := parseScan_presence sdp
  cases h1 : (parseScan sdp.media_descriptions).ice_username with
  | none =>
    have hufalse : anyMediaAttr sdp suppliesUfrag = false := by
      rw [← hu, h1]; rfl
    have herr : parse_sdp_config sdp fp =
        .error (.InvalidSDP "missing ice username") := by
      simp [parse_sdp_config, h1]
    refine ⟨⟨fun _ => Or.inl hufalse, fun _ => ⟨_, herr⟩⟩, ?_, ?_⟩
    · intro e he
      exact ⟨"missing ice username",
        by injection (herr.symm.trans he) with h; exact h.symm⟩
    · intro _ _ hu2 _
      simp [hufalse] at hu2
  | some u =>
    have hutrue : anyMediaAttr sdp suppliesUfrag = true := by
      rw [← hu, h1]; rfl
    cases h2 : (parseScan sdp.media_descriptions).ice_password with
    | none =>
      have hpfalse : anyMediaAttr sdp suppliesPwd = false := by
        rw [← hpw, h2]; rfl
      have herr : parse_sdp_config sdp fp =
          .error (.InvalidSDP "missing ice username") := by
        simp [parse_sdp_config, h1, h2]
      refine ⟨⟨fun _ => Or.inr (Or.inl hpfalse), fun _ => ⟨_, herr⟩⟩, ?_, ?_⟩
      · intro e he
        exact ⟨"missing ice username",
          by injection (herr.symm.trans he) with h; exact h.symm⟩
      · intro _ _ _ hp2
        simp [hpfalse] at hp2
    | some p =>
      have hptrue : anyMediaAttr sdp suppliesPwd = true := by
        rw [← hpw, h2]; rfl
      cases h3 : (parseScan sdp.media_descriptions).active_mode with
      | none =>
        have hsfalse : anyMediaAttr sdp suppliesSetup = false := by
          rw [← hs, h3]; rfl
        have herr : parse_sdp_config sdp fp =
            .error (.InvalidSDP "no active mode found") := by
          simp [parse_sdp_config, h1, h2, h3]
        refine ⟨⟨fun _ => Or.inr (Or.inr hsfalse), fun _ => ⟨_, herr⟩⟩, ?_, ?_⟩
        · intro e he
          exact ⟨"no active mode found",
            by injection (herr.symm.trans he) with h; exact h.symm⟩
        · intro _ hs2 _ _
          simp [hsfalse] at hs2
      | some m =>
        have hstrue : anyMediaAttr sdp suppliesSetup = true := by
          rw [← hs, h3]; rfl
        have hparse : parse_sdp_config sdp fp =
            .ok { remote_ice_username := u, remote_ice_password := p,
                  fingerprint := fp, active_mode := m } := by
          simp [parse_sdp_config, h1, h2, h3]
        refine ⟨⟨?_, ?_⟩, ?_, ?_⟩
        · rintro ⟨e, he⟩
          rw [hparse] at he
          exact Except.noConfusion he
        · rintro (h | h | h)
          · rw [hutrue] at h; exact absurd h (by decide)
          · rw [hptrue] at h; exact absurd h (by decide)
          · rw [hstrue] at h; exact absurd h (by decide)
        · intro e he
          rw [hparse] at he
          exact Except.noConfusion he
        · intro hall _ _ _
          have hinv := parseScan_mode_ap sdp hall
          rw [h3] at hinv
          rcases hinv with h | h
          · exact Option.noConfusion h
          · injection h with hm
            exact ⟨_, hparse, hm⟩

/-- C6, witness: an offer whose only `setup` value is the unrecognized
`holdconn` parses successfully with `active_mode = ActivePassive`; the
presence checks are discharged by evaluation. -/
theorem C6_witness :
    ∃ cfg, parse_sdp_config
        { emptySDP with media_descriptions :=
            [mediaWith [ { key := "ice-ufrag", value := some "abc" },
                         { key := "ice-pwd", value := some "xyz123456789" },
                         { key := "setup", value := some "holdconn" } ]] } "F" =
        .ok cfg ∧
      cfg.active_mode = ActiveMode.ActivePassive :=
  (C6_parse_sdp_config _ "F").2.2 (by decide) (by decide) (by decide) (by decide)

/-- C3: the answer built by `create_answer` has exactly as many media
sections as the offer, in the same order (section `i` of the answer is the
rewrite of section `i` of the offer); within each section every `sendrecv`
or `sendonly` attribute becomes `recvonly`, `ice-ufrag`/`ice-pwd` take the
locally generated credentials, `fingerprint` becomes
`sha-256 <local fingerprint>`, `setup` takes the complement of the
negotiated `active_mode` (`Active→passive`, `Passive→active`,
`ActivePassive→active`, matching the claimed value flip through
`parseSetupValue`), and every other attribute passes through unchanged. -/
theorem C3_create_answer :
    ∀ (offer : SessionDescription) (lu lp fp : String) (mode : ActiveMode),
      ((create_answer offer lu lp mode fp).media_descriptions.length =
        offer.media_descriptions.length) ∧
      (∀ (i : Nat) (hi : i < offer.media_descriptions.length)
          (hi2 : i < (create_answer offer lu lp mode fp).media_descriptions.length),
        (((create_answer offer lu lp mode fp).media_descriptions[i]).attributes.length =
          (offer.media_descriptions[i]).attributes.length) ∧
        (∀ (j : Nat) (hj : j < (offer.media_descriptions[i]).attributes.length)
            (hj2 : j < ((create_answer offer lu lp mode fp).media_descriptions[i]).attributes.length),
          ((((offer.media_descriptions[i]).attributes[j]).key = "sendrecv" ∨
            ((offer.media_descriptions[i]).attributes[j]).key = "sendonly") →
            ((create_answer offer lu lp mode fp).media_descriptions[i]).attributes[j] =
              { key := "recvonly", value := none }) ∧
          (((offer.media_descriptions[i]).attributes[j]).key = "ice-ufrag" →
            ((create_answer offer lu lp mode fp).media_descriptions[i]).attributes[j] =
              { key := "ice-ufrag", value := some lu }) ∧
          (((offer.media_descriptions[i]).attributes[j]).key = "ice-pwd" →
            ((create_answer offer lu lp mode fp).media_descriptions[i]).attributes[j] =
              { key := "ice-pwd", value := some lp }) ∧
          (((offer.media_descriptions[i]).attributes[j]).key = "fingerprint" →
            ((create_answer offer lu lp mode fp).media_descriptions[i]).attributes[j] =
              { key := "fingerprint", value := some ("sha-256 " ++ fp) }) ∧
          (((offer.media_descriptions[i]).attributes[j]).key = "setup" →
            ((create_answer offer lu lp mode fp).media_descriptions[i]).attributes[j] =
              { key := "setup", value := some (flipSetup mode) }) ∧
          (((offer.media_descriptions[i]).attributes[j]).key ≠ "sendrecv" →
            ((offer.media_descriptions[i]).attributes[j]).key ≠ "sendonly" →
            ((offer.media_descriptions[i]).attributes[j]).key ≠ "ice-ufrag" →
            ((offer.media_descriptions[i]).attributes[j]).key ≠ "ice-pwd" →
            ((offer.media_descriptions[i]).attributes[j]).key ≠ "fingerprint" →
            ((offer.media_descriptions[i]).attributes[j]).key ≠ "setup" →
            ((create_answer offer lu lp mode fp).media_descriptions[i]).attributes[j] =
              (offer.media_descriptions[i]).attributes[j]))) ∧
      (flipSetup (parseSetupValue "active") = "passive" ∧
       flipSetup (parseSetupValue "passive") = "active" ∧
       flipSetup (parseSetupValue "actpass") = "active") := by
  intro offer lu lp fp mode
  refine ⟨by simp [create_answer], ?_, by decide⟩
  intro i hi hi2
  have hmd : ((create_answer offer lu lp mode fp).media_descriptions[i]) =
      answerMediaDescription offer lu lp mode fp (offer.media_descriptions[i]) := by
    simp [create_answer]
  have hattrs_eq : ((create_answer offer lu lp mode fp).media_descriptions[i]).attributes =
      ((offer.media_descriptions[i]).attributes.map (answerAttr lu lp mode fp)) := by
    rw [hmd]; rfl
  constructor
  · simp [hattrs_eq]
  · intro j hj hj2
    have hattr : (((create_answer offer lu lp mode fp).media_descriptions[i]).attributes[j]) =
        answerAttr lu lp mode fp ((offer.media_descriptions[i]).attributes[j]) := by
      simp only [hattrs_eq, List.getElem_map]
    refine ⟨?_, ?_, ?_, ?_, ?_, ?_⟩
    · rintro (h | h) <;> rw [hattr] <;> simp [answerAttr, h]
    · intro h; rw [hattr]; simp [answerAttr, h]
    · intro h; rw [hattr]; simp [answerAttr, h]
    · intro h; rw [hattr]; simp [answerAttr, h]
    · intro h; rw [hattr]; cases mode <;> simp [answerAttr, h, flipSetup]
    · intro h1 h2 h3 h4 h5 h6
      rw [hattr]
      unfold answerAttr
      rw [if_neg h2, if_neg h1, if_neg h3, if_neg h4, if_neg h5, if_neg h6]

/-- C3, witness: on the concrete `actpass` offer, the `sendrecv` attribute
(index 3) becomes `recvonly` and the `setup` attribute (index 2) becomes
`setup:active`. -/
theorem C3_witness :
    ((create_answer offerActpass "localu" "localp" ActiveMode.ActivePassive
        "FF").media_descriptions.get ⟨0, by decide⟩).attributes.get ⟨3, by decide⟩ =
      { key := "recvonly", value := none } ∧
    ((create_answer offerActpass "localu" "localp" ActiveMode.ActivePassive
        "FF").media_descriptions.get ⟨0, by decide⟩).attributes.get ⟨2, by decide⟩ =
      { key := "setup", value := some "active" } := by
  have h := (C3_create_answer offerActpass "localu" "localp" "FF"
    ActiveMode.ActivePassive).2.1 0 (by decide) (by decide)
  have h1 := (h.2 3 (by decide) (by decide)).1 (Or.inl (by decide))
  have h2 := ((h.2 2 (by decide) (by decide)).2.2.2.2).1 (by decide)
  exact ⟨by simpa [List.get_eq_getElem] using h1,
    by simpa [List.get_eq_getElem, flipSetup] using h2⟩

/-- Helper: `start_handshake` never writes `message_state`. -/
theorem start_handshake_message_state (st : ProxyHandlerState)
    (offer : SessionDescription) (env : Env) :
    (start_handshake st offer env).1.message_state = st.message_state := by
  unfold start_handshake
  repeat (first | rfl | split)

/-- Helper: `handle_end_of_candidates` never writes `message_state`. -/
theorem handle_end_of_candidates_message_state (st : ProxyHandlerState) (env : Env) :
    (handle_end_of_candidates st env).1.message_state = st.message_state := by
  unfold handle_end_of_candidates
  dsimp only
  repeat (first | rfl | split)

/-- Helper: `handle_offer` leaves `message_state` unchanged (parse failure) or
sets it to `Candidate`. -/
theorem handle_offer_message_state (st : ProxyHandlerState) (sdpText : String)
    (env : Env) :
    (handle_offer st sdpText env).1.message_state = st.message_state ∨
    (handle_offer st sdpText env).1.message_state = ProxyMessageState.Candidate := by
  unfold handle_offer
  cases hmo : env.unmarshal sdpText with
  | none => exact Or.inl rfl
  | some offer =>
    right
    rw [start_handshake_message_state]

/-- Helper: `handle_candidate` leaves `message_state` unchanged or sets it to
`CandidatesEnd`. -/
theorem handle_candidate_message_state (st : ProxyHandlerState) (c : String)
    (env : Env) :
    (handle_candidate st c env).1.message_state = st.message_state ∨
    (handle_candidate st c env).1.message_state = ProxyMessageState.CandidatesEnd := by
  unfold handle_candidate
  split_ifs with h1 h2
  · exact Or.inl rfl
  · right
    rw [handle_end_of_candidates_message_state]
  · exact Or.inl rfl

/-- C7: over any inbound message, `message_state` only advances along
`Offer → Candidate → CandidatesEnd` — its rank never decreases and increases
by at most one step — and once in `CandidatesEnd`, `handle_message` returns
the handler state unchanged in every field. -/
theorem C7_message_state_monotonic :
    ∀ (st : ProxyHandlerState) (msg : InboundMessage) (env : Env),
      (st.message_state.rank ≤ ((handle_message st msg env).1).message_state.rank ∧
       ((handle_message st msg env).1).message_state.rank ≤ st.message_state.rank + 1) ∧
      (st.message_state = ProxyMessageState.CandidatesEnd →
        (handle_message st msg env).1 = st) := by
  intro st msg env
  cases hms : st.message_state with
  | Offer =>
    constructor
    · simp only [handle_message, hms]
      cases hmo : msg.asOffer with
      | none => simp [ProxyMessageState.rank, hms]
      | some sdpText =>
        rcases handle_offer_message_state st sdpText env with h | h <;>
          simp [ProxyMessageState.rank, hms, h]
    · intro h
      exact ProxyMessageState.noConfusion h
  | Candidate =>
    constructor
    · simp only [handle_message, hms]
      cases hmc : msg.asCandidate with
      | none => simp [ProxyMessageState.rank, hms]
      | some c =>
        rcases handle_candidate_message_state st c env with h | h <;>
          simp [ProxyMessageState.rank, hms, h]
    · intro h
      exact ProxyMessageState.noConfusion h
  | CandidatesEnd =>
    constructor
    · simp [handle_message, hms, ProxyMessageState.rank]
    · intro _
      simp [handle_message, hms]

/-- C7, witness: in `CandidatesEnd`, a further message leaves the state
record untouched. -/
theorem C7_witness :
    (handle_message
        { ProxyHandlerState.new with message_state := ProxyMessageState.CandidatesEnd }
        ⟨some "x", some ""⟩ envOk).1 =
      { ProxyHandlerState.new with message_state := ProxyMessageState.CandidatesEnd } :=
  (C7_message_state_monotonic _ _ _).2 rfl

/-- C10: whenever the offer SDP text unmarshals successfully, `handle_offer`
has already set `message_state` to `Candidate` before `start_handshake`
runs, so for every combination of outcomes of the fallible steps (agent
creation, fingerprint computation, SDP-config parsing, candidate gathering,
candidate sends) — in particular every failing one — the session is left in
the `Candidate` state. -/
theorem C10_offer_sets_candidate_first :
    ∀ (st : ProxyHandlerState) (sdpText : String) (env : Env)
      (offer : SessionDescription),
      env.unmarshal sdpText = some offer →
      (handle_offer st sdpText env).1.message_state = ProxyMessageState.Candidate := by
  intro st sdpText env offer h
  unfold handle_offer
  simp only [h]
  rw [start_handshake_message_state]

/-- C10, witness: with ICE-agent creation failing, `handle_offer` returns the
`InvalidAgentConfig` error yet the session is in the `Candidate` state. -/
theorem C10_witness :
    (handle_offer ProxyHandlerState.new "offer"
        { envOk with agentNewOk := false }).1.message_state =
      ProxyMessageState.Candidate ∧
    (handle_offer ProxyHandlerState.new "offer"
        { envOk with agentNewOk := false }).2 =
      .error OfferWebSocketError.InvalidAgentConfig := by
  refine ⟨C10_offer_sets_candidate_first ProxyHandlerState.new "offer"
    { envOk with agentNewOk := false } offerActpass rfl, rfl⟩

end LoadTestServer
